import Mathlib

/-!
Verification of the dynamic-schema table materialization and bulk-load core of
the repository (src/modules/postgres.py) together with the token workflow and
fetch orchestration (src/strava.py).

Modelling conventions:
* A dataset cell is a `PyVal`: the scalar values the loader can see
  (null, bool, int, float, Decimal, str).  A dataframe column is modelled as a
  `List PyVal` with object (value-level) semantics; pandas dtype-level
  predicates are modelled by their value-level meaning on such columns
  (pandas version 2.x semantics for `is_string_dtype` on object columns).
* Python floats and `Decimal` values are modelled as scaled decimals
  `m / 10 ^ e`; their `repr` is the usual fixed-point rendering, which agrees
  with Python for decimally-representable values of moderate magnitude.
* Python numeric equality identifies `True` with `1` and `False` with `0`
  (also as floats and Decimals); this is what `Series.isin([True, False])`
  uses, and `isinstance(x, int)` is true for Python booleans.
-/

/-- A scalar value as seen by the loader: null, bool, int, float, Decimal or
string.  Floats and decimals carry a scaled-decimal representation
`m / 10 ^ e`. -/
inductive PyVal where
  | none : PyVal
  | bool (b : Bool) : PyVal
  | int (i : Int) : PyVal
  | float (m : Int) (e : Nat) : PyVal
  | dec (m : Int) (e : Nat) : PyVal
  | str (s : String) : PyVal
deriving DecidableEq

/-- Normalize a scaled decimal `m / 10 ^ e` by stripping factors of ten that
are common to `m` and `10 ^ e`; this is the value-preserving normal form that
`float(...)` conversion and float `repr` display. -/
def stripZeros : Int → Nat → Int × Nat
  | m, 0 => (m, 0)
  | m, e + 1 => if m % 10 = 0 then stripZeros (m / 10) e else (m, e + 1)

/-- Render the scaled decimal `m / 10 ^ e` the way Python `repr` renders the
corresponding float: sign, integer digits, a decimal point, fractional digits
(`3 → "3.0"`, `25 / 10 → "2.5"`, `5 / 10 → "0.5"`). -/
def renderScaled (m : Int) (e : Nat) : String :=
  let sign := if m < 0 then "-" else ""
  let digits := toString m.natAbs
  let digits :=
    if digits.length ≤ e then
      String.mk (List.replicate (e + 1 - digits.length) '0') ++ digits
    else digits
  if e = 0 then sign ++ digits ++ ".0"
  else sign ++ digits.take (digits.length - e) ++ "." ++ digits.drop (digits.length - e)

/-- Python `repr` of the float with value `m / 10 ^ e` (normalized first). -/
def pyFloatRepr (m : Int) (e : Nat) : String :=
  renderScaled (stripZeros m e).1 (stripZeros m e).2

/-- Models `value.replace("\x27", "\x27\x27")` from
`_execute_insert_into_values_query`: the pattern is the single-character
single quote, so Python `str.replace` is exactly per-character substitution,
doubling every single quote. -/
def escapeQuotes (s : String) : String :=
  String.mk (s.data.foldr (fun c acc => if c = '\x27' then '\x27' :: '\x27' :: acc else c :: acc) [])

/-- The value-formatting branch of `_execute_insert_into_values_query`
(src/modules/postgres.py lines 157-176): None to NULL, bool to TRUE/FALSE,
Decimal to `repr(float(value))`, str to a single-quoted literal with embedded
quotes doubled, everything else to `repr(value)`. -/
def value_repr : PyVal → String
  | PyVal.none => "NULL"
  | PyVal.bool b => if b then "TRUE" else "FALSE"
  | PyVal.dec m e => pyFloatRepr m e
  | PyVal.str s => "\x27" ++ escapeQuotes s ++ "\x27"
  | PyVal.int i => toString i
  | PyVal.float m e => pyFloatRepr m e

/-- The spec's value-formatting rules, stated from the spec's words: null is
the literal NULL keyword; a boolean is TRUE or FALSE; a fixed-point decimal is
its floating-point textual form; a string is single-quoted with every embedded
single quote doubled (expressed here by flat-mapping each character to a
doubled pair when it is a quote); other scalars keep their default textual
representation. -/
def specValueRendering : PyVal → String
  | PyVal.none => "NULL"
  | PyVal.bool b => if b then "TRUE" else "FALSE"
  | PyVal.dec m e => pyFloatRepr m e
  | PyVal.str s =>
      "\x27" ++ String.mk (s.data.flatMap (fun c => if c = '\x27' then ['\x27', '\x27'] else [c])) ++ "\x27"
  | PyVal.int i => toString i
  | PyVal.float m e => pyFloatRepr m e

/-- The bulk INSERT statement built by `_execute_insert_into_values_query`:
comma-joined column list, and one parenthesized comma-joined tuple of
formatted values per row. -/
def insert_into_values_query (destination_table : String) (columns : List String)
    (rows : List (List PyVal)) : String :=
  let cols := String.intercalate ", " columns
  let values := String.intercalate ", "
    (rows.map (fun row => "(" ++ String.intercalate ", " (row.map value_repr) ++ ")"))
  "INSERT INTO " ++ destination_table ++ " (" ++ cols ++ ") VALUES " ++ values ++ ";"

/-- `df[column].dropna()`: the non-null values of a column. -/
def dropna (col : List PyVal) : List PyVal :=
  col.filter (fun v => v ≠ PyVal.none)

/-- Python equality of a value with `True` or `False`, as used by
`non_null_series.isin([True, False])`: booleans always; integers equal to
0 or 1; floats and Decimals whose value is 0 or 1. -/
def isBoolLike : PyVal → Bool
  | PyVal.bool _ => true
  | PyVal.int i => i == 0 || i == 1
  | PyVal.float m e =>
      let n := stripZeros m e
      n.2 == 0 && (n.1 == 0 || n.1 == 1)
  | PyVal.dec m e =>
      let n := stripZeros m e
      n.2 == 0 && (n.1 == 0 || n.1 == 1)
  | _ => false

/-- `isinstance(x, int)`: true for Python ints and also for Python booleans
(bool is a subclass of int). -/
def isPyInt : PyVal → Bool
  | PyVal.int _ => true
  | PyVal.bool _ => true
  | _ => false

/-- `isinstance(x, float) or isinstance(x, Decimal)`. -/
def isFloatOrDec : PyVal → Bool
  | PyVal.float _ _ => true
  | PyVal.dec _ _ => true
  | _ => false

/-- Value is a Python string. -/
def isStr : PyVal → Bool
  | PyVal.str _ => true
  | _ => false

/-- Value is strictly a boolean (the claim's notion of boolean-valued). -/
def isStrictBool : PyVal → Bool
  | PyVal.bool _ => true
  | _ => false

/-- Value is strictly an integer (the claim's notion of integer-valued). -/
def isStrictInt : PyVal → Bool
  | PyVal.int _ => true
  | _ => false

/-- `int(x)` for the values reaching the integer branch: the integer itself,
and 1 or 0 for booleans. -/
def pyIntVal : PyVal → Int
  | PyVal.int i => i
  | PyVal.bool b => if b then 1 else 0
  | _ => 0

/-- Fuel-driven computation of the number of decimal digits. -/
def digitLenGo : Nat → Nat → Nat
  | _, 0 => 1
  | n, fuel + 1 => if n < 10 then 1 else digitLenGo (n / 10) fuel + 1

/-- `len(str(n))` for a natural number `n`: its count of decimal digits
(`digitLen 0 = 1`). -/
def digitLen (n : Nat) : Nat :=
  digitLenGo n n

/-- The string content of a value, for the VARCHAR-length computation. -/
def strVal : PyVal → String
  | PyVal.str s => s
  | _ => ""

/-- The per-value length term of the string branch,
`len(str(x)) if x else 0`: Python truthiness sends the empty string to the
`else 0` arm, which coincides with its length. -/
def pyStrLenCode (v : PyVal) : Nat :=
  if strVal v ≠ "" then (strVal v).length else 0

/-- Maximum character length across a column's values (the spec's `n` for
VARCHAR(n)). -/
def maxCharLen (l : List PyVal) : Nat :=
  (l.map (fun v => (strVal v).length)).foldl max 0

/-- Largest absolute value across a column's integer values. -/
def maxAbsInt (l : List PyVal) : Nat :=
  (l.map (fun v => (pyIntVal v).natAbs)).foldl max 0

/-- The per-column type inference of `_execute_create_table_query`
(src/modules/postgres.py lines 106-131), for a column modelled as an
object-valued sequence:
empty after dropna gives VARCHAR(255); all values in `{True, False}` under
Python equality gives BOOLEAN; all `isinstance(_, int)` gives INTEGER, or
BIGINT when the largest digit count exceeds 9; all floats/Decimals gives
FLOAT; an all-string column gives VARCHAR of the maximum length; anything
else falls back to VARCHAR(255). -/
def inferColumnType (col : List PyVal) : String :=
  if dropna col = [] then "VARCHAR(255)"
  else if (dropna col).all isBoolLike then "BOOLEAN"
  else if (dropna col).all isPyInt then
    if ((dropna col).map (fun v => digitLen (pyIntVal v).natAbs)).foldl max 0 > 9 then
      "BIGINT"
    else "INTEGER"
  else if (dropna col).all isFloatOrDec then "FLOAT"
  else if (dropna col).all isStr then
    "VARCHAR(" ++ toString (((dropna col).map pyStrLenCode).foldl max 0) ++ ")"
  else "VARCHAR(255)"

/-- The CREATE TABLE statement built by `_execute_create_table_query`:
one `name type` definition per column, in dataset order. -/
def create_table_query (table_name : String) (cols : List (String × List PyVal)) : String :=
  "CREATE TABLE " ++ table_name ++ " (" ++
    String.intercalate ", " (cols.map (fun c => c.1 ++ " " ++ inferColumnType c.2)) ++ ");"

/-- A dataframe: ordered column names and positionally aligned rows. -/
structure Df where
  columns : List String
  rows : List (List PyVal)
deriving DecidableEq

/-- The database: an association of table names to their committed rows. -/
abbrev DB := List (String × List (List PyVal))

/-- Look a table up by name. -/
def dbLookup : DB → String → Option (List (List PyVal))
  | [], _ => Option.none
  | (n, rs) :: rest, t => if n = t then some rs else dbLookup rest t

/-- `DROP TABLE`: remove the table from the database state. -/
def dbDrop (db : DB) (t : String) : DB :=
  db.filter (fun p => p.1 ≠ t)

/-- `INSERT INTO t VALUES ...`: append the rows to the named table. -/
def dbInsertRows (db : DB) (t : String) (rs : List (List PyVal)) : DB :=
  db.map (fun p => if p.1 = t then (p.1, p.2 ++ rs) else p)

/-- The steps of `load_dataframe_to_table` at which a failure can be
injected: opening the connection (`psycopg2.connect`), opening the cursor
(`self.conn.cursor()`), the existence check, the drop, the create, the
insert, and the commit. -/
inductive LoadStep where
  | connOpen : LoadStep
  | cursorOpen : LoadStep
  | checkExists : LoadStep
  | dropTable : LoadStep
  | createTable : LoadStep
  | insertRows : LoadStep
  | commitTx : LoadStep
deriving DecidableEq

/-- How `load_dataframe_to_table` finishes: normally, with the error caught
and printed by its `except` clause, or with an exception escaping to the
caller. -/
inductive LoadOutcome where
  | ok : LoadOutcome
  | errorReported : LoadOutcome
  | raised : LoadOutcome
deriving DecidableEq

/-- The observable result of one load call: the committed database state,
whether a connection or a cursor is still open afterwards, and how the call
finished. -/
structure LoadResult where
  db : DB
  connOpen : Bool
  cursorOpen : Bool
  outcome : LoadOutcome
deriving DecidableEq

/-- `Postgres.load_dataframe_to_table` (src/modules/postgres.py lines 60-98)
over a transactional database (psycopg2 with autocommit off; DDL is
transactional, so a rollback restores every uncommitted change, including a
drop).

Control flow of the source, step by step:
* `psycopg2.connect` raising means `self.conn` was never set, so the `except`
  clause's `self._rollback()` raises AttributeError, and the `finally`
  clause's `self._disconnect()` raises again on `self.cursor.close()`; the
  exception escapes the method with nothing opened.
* `self.conn.cursor()` raising leaves an open connection and no cursor; the
  rollback in `except` succeeds, but `_disconnect` raises on
  `self.cursor.close()` before ever reaching `self.conn.close()`, so the
  connection stays open and the exception escapes.
* a failure at the existence check, drop, create (including `df` being None,
  where `df.columns` raises AttributeError), insert or commit is caught:
  the transaction is rolled back (pending changes discarded), the error is
  printed, and `finally` closes cursor and connection.
* otherwise the pending state (drop if present, create, insert) is
  committed. -/
def load_dataframe_to_table (db : DB) (df : Option Df) (destination_table : String)
    (failAt : Option LoadStep) : LoadResult :=
  if failAt = some LoadStep.connOpen then
    ⟨db, false, false, LoadOutcome.raised⟩
  else if failAt = some LoadStep.cursorOpen then
    ⟨db, true, false, LoadOutcome.raised⟩
  else if failAt = some LoadStep.checkExists then
    ⟨db, false, false, LoadOutcome.errorReported⟩
  else if failAt = some LoadStep.dropTable ∧ (dbLookup db destination_table).isSome then
    ⟨db, false, false, LoadOutcome.errorReported⟩
  else
    match df with
    | Option.none => ⟨db, false, false, LoadOutcome.errorReported⟩
    | some d =>
      if failAt = some LoadStep.createTable ∨
          (dbLookup
            (if (dbLookup db destination_table).isSome then dbDrop db destination_table else db)
            destination_table).isSome then
        ⟨db, false, false, LoadOutcome.errorReported⟩
      else if failAt = some LoadStep.insertRows then
        ⟨db, false, false, LoadOutcome.errorReported⟩
      else if failAt = some LoadStep.commitTx then
        ⟨db, false, false, LoadOutcome.errorReported⟩
      else
        ⟨dbInsertRows
          ((destination_table, ([] : List (List PyVal))) ::
            (if (dbLookup db destination_table).isSome then dbDrop db destination_table else db))
          destination_table d.rows, false, false, LoadOutcome.ok⟩

/-- The token file contents: access token, refresh token and expiry in epoch
seconds. -/
structure TokenData where
  access_token : String
  refresh_token : String
  expires_at : Int
deriving DecidableEq

/-- The externally observable events of the token workflow and of a fetch:
reading the token file, the refresh POST, saving the token file, and the
bearer-authorized GET to the protected endpoint. -/
inductive TokenEvent where
  | loadFile : TokenEvent
  | refreshPost : TokenEvent
  | saveFile : TokenEvent
  | protectedGet : TokenEvent
deriving DecidableEq

/-- Result of `access_token_workflow`: the returned token, the token file
contents afterwards, whether a refresh POST was issued, and the event trace
in order. -/
structure TokenFlowResult where
  token : String
  file : TokenData
  refreshCalled : Bool
  trace : List TokenEvent
deriving DecidableEq

/-- `access_token_workflow` (src/strava.py lines 108-143): load the stored
token; if `expires_at` is strictly below the current time, POST a refresh
(the response is the `refreshed` oracle), overwrite the token file with the
response, and return its access token; otherwise return the stored access
token with no refresh call. -/
def access_token_workflow (stored : TokenData) (now : Int) (refreshed : TokenData) :
    TokenFlowResult :=
  if stored.expires_at < now then
    ⟨refreshed.access_token, refreshed, true,
      [TokenEvent.loadFile, TokenEvent.refreshPost, TokenEvent.saveFile]⟩
  else
    ⟨stored.access_token, stored, false, [TokenEvent.loadFile]⟩

/-- Result of `fetch_strava_activities`: the produced dataframe, if any, and
which diagnostic was printed. -/
structure FetchResult where
  df : Option Df
  printedApiError : Bool
  printedTokenError : Bool
deriving DecidableEq

/-- `fetch_strava_activities` (src/strava.py lines 15-77): run the token
workflow; with a truthy (non-empty) token, GET the activities endpoint.  A
200 response yields the normalized dataframe (`payload`, the Record
Normalizer being an external collaborator); any other status prints the error
and produces no dataframe (the function returns None).  A falsy token prints
a token diagnostic and produces nothing. -/
def fetch_strava_activities (stored : TokenData) (now : Int) (refreshed : TokenData)
    (status : Nat) (payload : Df) : FetchResult :=
  let w := access_token_workflow stored now refreshed
  if w.token ≠ "" then
    if status = 200 then ⟨some payload, false, false⟩
    else ⟨Option.none, true, false⟩
  else ⟨Option.none, false, true⟩

/-- The ordered trace of token-store, refresh and HTTP events of one
`fetch_strava_activities` call: the workflow events, then the protected GET
when the token is truthy. -/
def fetch_strava_activities_events (stored : TokenData) (now : Int) (refreshed : TokenData) :
    List TokenEvent :=
  let w := access_token_workflow stored now refreshed
  w.trace ++ (if w.token ≠ "" then [TokenEvent.protectedGet] else [])

/-- The athlete record of the single-athlete endpoint. -/
structure AthleteRec where
  id : Int
  firstname : String
  lastname : String
deriving DecidableEq

/-- Result of `fetch_strava_athletes`: the produced dataframe if any, whether
a diagnostic was printed, and whether the call raised an unhandled error. -/
structure AthFetchResult where
  df : Option Df
  printedApiError : Bool
  raised : Bool
deriving DecidableEq

/-- The dataframe `fetch_strava_athletes` builds from `user_dict` on the
status-200 branch. -/
def athlete_user_df (a : AthleteRec) : Df :=
  ⟨["athlete_id", "athlete_full_name"],
    [[PyVal.int a.id, PyVal.str (a.firstname ++ " " ++ a.lastname)]]⟩

/-- `fetch_strava_athletes` (src/strava.py lines 80-106): with a truthy
token, GET the athlete endpoint; on a 200 response, `user_dict` is assigned
and the dataframe is returned.  On any other status the function still
executes `return pd.DataFrame(data=user_dict, ...)`, but `user_dict` was only
assigned on the 200 branch, so the call raises UnboundLocalError with no
diagnostic printed.  With a falsy token the body is skipped and None is
returned silently. -/
def fetch_strava_athletes (stored : TokenData) (now : Int) (refreshed : TokenData)
    (status : Nat) (athlete : AthleteRec) : AthFetchResult :=
  let w := access_token_workflow stored now refreshed
  if w.token ≠ "" then
    if status = 200 then ⟨some (athlete_user_df athlete), false, false⟩
    else ⟨Option.none, false, true⟩
  else ⟨Option.none, false, false⟩

/-- The observable result of `load_strava_data_to_postgres`: the activities
fetch outcome, whether the activities load was invoked and how it went, the
database after it, whether the athletes fetch raised (crashing the run before
the athletes load), and the final database state. -/
structure OrchResult where
  activitiesDf : Option Df
  activitiesApiErrorPrinted : Bool
  activitiesLoadInvoked : Bool
  activitiesLoadOutcome : LoadOutcome
  dbAfterActivities : DB
  athletesFetchRaised : Bool
  athletesLoadInvoked : Bool
  dbFinal : DB
deriving DecidableEq

/-- `load_strava_data_to_postgres` (src/strava.py lines 165-196): fetch the
activities, then unconditionally call
`psql.load_dataframe_to_table(df=strava_df, ...)` with whatever the fetch
returned (possibly None); then fetch the athletes (reading the token file the
first workflow left behind) and, unless that fetch raised, load its result
the same way.  No failure is injected into the database steps themselves
(`failAt = Option.none`); the only failure source modelled here is a missing
dataframe. -/
def load_strava_data_to_postgres (db : DB) (stored : TokenData) (now : Int)
    (refreshed : TokenData) (actStatus : Nat) (actPayload : Df)
    (athStatus : Nat) (athlete : AthleteRec) : OrchResult :=
  let fa := fetch_strava_activities stored now refreshed actStatus actPayload
  let file1 := (access_token_workflow stored now refreshed).file
  let r1 := load_dataframe_to_table db fa.df "sb.strava_activities" Option.none
  let fb := fetch_strava_athletes file1 now refreshed athStatus athlete
  { activitiesDf := fa.df
    activitiesApiErrorPrinted := fa.printedApiError
    activitiesLoadInvoked := true
    activitiesLoadOutcome := r1.outcome
    dbAfterActivities := r1.db
    athletesFetchRaised := fb.raised
    athletesLoadInvoked := !fb.raised
    dbFinal :=
      if fb.raised then r1.db
      else (load_dataframe_to_table r1.db fb.df "sb.strava_athletes" Option.none).db }

theorem digitLenGo_stable : ∀ (f n f' : Nat), n ≤ f → n ≤ f' → digitLenGo n f = digitLenGo n f' := by
  intro f
  induction f with
  | zero =>
    intro n f' hf _
    have hn : n = 0 := Nat.le_zero.mp hf
    subst hn
    cases f' with
    | zero => rfl
    | succ g => simp [digitLenGo]
  | succ f ih =>
    intro n f' hf hf'
    cases f' with
    | zero =>
      have hn : n = 0 := Nat.le_zero.mp hf'
      subst hn
      simp [digitLenGo]
    | succ g =>
      by_cases h : n < 10
      · simp [digitLenGo, h]
      · have h10 : 10 ≤ n := Nat.not_lt.mp h
        have hd : n / 10 < n := Nat.div_lt_self (by omega) (by omega)
        simp only [digitLenGo, if_neg h]
        rw [ih (n / 10) g (by omega) (by omega)]

theorem digitLen_eq (n : Nat) : digitLen n = if n < 10 then 1 else digitLen (n / 10) + 1 := by
  by_cases h : n < 10
  · rw [if_pos h]
    unfold digitLen
    cases n with
    | zero => rfl
    | succ k => simp [digitLenGo, h]
  · rw [if_neg h]
    have h10 : 10 ≤ n := Nat.not_lt.mp h
    cases n with
    | zero => omega
    | succ k =>
      show digitLenGo (k + 1) (k + 1) = digitLen ((k + 1) / 10) + 1
      simp only [digitLenGo, if_neg h]
      have hd : (k + 1) / 10 < k + 1 := Nat.div_lt_self (by omega) (by omega)
      rw [digitLenGo_stable k ((k + 1) / 10) ((k + 1) / 10) (by omega) (Nat.le_refl _)]
      rfl

theorem digitLenGo_pos (n f : Nat) : 1 ≤ digitLenGo n f := by
  cases f with
  | zero => exact Nat.le_refl 1
  | succ g => simp only [digitLenGo]; split <;> omega

theorem digitLen_pos (n : Nat) : 1 ≤ digitLen n := digitLenGo_pos n n

theorem digitLen_mono : ∀ b a : Nat, a ≤ b → digitLen a ≤ digitLen b := by
  intro b
  induction b using Nat.strong_induction_on with
  | _ b ih =>
    intro a h
    rw [digitLen_eq a, digitLen_eq b]
    by_cases hb : b < 10
    · have ha : a < 10 := by omega
      simp [ha, hb]
    · rw [if_neg hb]
      by_cases ha : a < 10
      · rw [if_pos ha]
        have := digitLen_pos (b / 10)
        omega
      · rw [if_neg ha]
        have hblt : b / 10 < b := Nat.div_lt_self (by omega) (by omega)
        have hle : a / 10 ≤ b / 10 := Nat.div_le_div_right h
        have := ih (b / 10) hblt (a / 10) hle
        omega

theorem digitLen_max (a b : Nat) : digitLen (max a b) = max (digitLen a) (digitLen b) := by
  rcases Nat.le_total a b with h | h
  · rw [Nat.max_eq_right h, Nat.max_eq_right (digitLen_mono b a h)]
  · rw [Nat.max_eq_left h, Nat.max_eq_left (digitLen_mono a b h)]

theorem foldl_max_map_digitLen (l : List Nat) : ∀ a : Nat,
    (l.map digitLen).foldl max (digitLen a) = digitLen (l.foldl max a) := by
  induction l with
  | nil => intro a; rfl
  | cons x xs ih =>
    intro a
    simp only [List.map_cons, List.foldl_cons]
    rw [← digitLen_max a x, ih]

theorem foldl_max_digitLen_of_ne_nil (l : List Nat) (h : l ≠ []) :
    (l.map digitLen).foldl max 0 = digitLen (l.foldl max 0) := by
  cases l with
  | nil => exact absurd rfl h
  | cons x xs =>
    simp only [List.map_cons, List.foldl_cons]
    rw [Nat.max_eq_right (Nat.zero_le (digitLen x)), Nat.max_eq_right (Nat.zero_le x)]
    exact foldl_max_map_digitLen xs x

theorem all_eq_false_of_mem {l : List PyVal} {p : PyVal → Bool} {x : PyVal}
    (hx : x ∈ l) (hpx : p x = false) : l.all p = false := by
  cases h : l.all p with
  | false => rfl
  | true => exact absurd (List.all_eq_true.mp h x hx) (by simp [hpx])

theorem dbLookup_dbDrop (db : DB) (t : String) : dbLookup (dbDrop db t) t = Option.none := by
  induction db with
  | nil => rfl
  | cons p rest ih =>
    by_cases h : p.1 = t
    · simpa [dbDrop, List.filter_cons, h] using ih
    · simpa [dbDrop, List.filter_cons, h, dbLookup] using ih

theorem foldr_escape_eq_flatMap (cs : List Char) :
    cs.foldr (fun c acc => if c = '\x27' then '\x27' :: '\x27' :: acc else c :: acc) [] =
      cs.flatMap (fun c => if c = '\x27' then ['\x27', '\x27'] else [c]) := by
  induction cs with
  | nil => rfl
  | cons c cs ih =>
    by_cases h : c = '\x27' <;> simp [h, ih, List.flatMap]

theorem varchar_ne_short (t u : String) (h : u.length < 9) :
    "VARCHAR(" ++ t ++ ")" ≠ u := by
  intro hEq
  have hlen := congrArg String.length hEq
  rw [String.length_append, String.length_append] at hlen
  have h8 : ("VARCHAR(" : String).length = 8 := rfl
  have h1 : (")" : String).length = 1 := rfl
  omega

/-- C1: every value rendered into the generated bulk INSERT statement follows
the spec's formatting rules: null becomes the literal NULL keyword, a boolean
becomes TRUE or FALSE, a fixed-point decimal becomes its floating-point
textual form, a string becomes a single-quoted literal with every embedded
single quote doubled, and any other scalar keeps its default textual
representation; in particular the input O\x27Brien is rendered as
\x27O\x27\x27Brien\x27 in the generated statement. -/
theorem c1_value_formatting :
    (∀ v : PyVal, value_repr v = specValueRendering v)
    ∧ value_repr (PyVal.str "O\x27Brien") = "\x27O\x27\x27Brien\x27"
    ∧ insert_into_values_query "sb.strava_athletes" ["athlete_full_name"]
        [[PyVal.str "O\x27Brien"]]
      = "INSERT INTO sb.strava_athletes (athlete_full_name) VALUES (\x27O\x27\x27Brien\x27);" := by
  refine ⟨?_, by decide, by decide⟩
  intro v
  cases v <;> simp [value_repr, specValueRendering, escapeQuotes, foldr_escape_eq_flatMap]

/-- C2 counterexample: the all-integer column [0, 1] is classified BOOLEAN by
the inference (pandas `isin([True, False])` uses Python numeric equality, so
0 and 1 match False and True), although none of its values is a boolean;
this falsifies the claim that BOOLEAN is assigned exactly when every non-null
value is drawn strictly from the booleans, and that integer-valued columns
are never classified BOOLEAN. -/
theorem c2_counterexample :
    inferColumnType [PyVal.int 0, PyVal.int 1] = "BOOLEAN"
    ∧ [PyVal.int 0, PyVal.int 1].all isStrictBool = false
    ∧ [PyVal.int 0, PyVal.int 1].all isStrictInt = true := by decide

/-- C2 amended: the inference assigns BOOLEAN exactly when the column has at
least one non-null value and every non-null value equals True or False under
Python numeric equality (booleans always, and also the integers, floats and
Decimals of value 0 or 1); the boolean check still precedes the integer
check, so all-boolean columns are never classified INTEGER. -/
theorem c2_boolean_iff (col : List PyVal) :
    inferColumnType col = "BOOLEAN" ↔
      (dropna col ≠ [] ∧ (dropna col).all isBoolLike = true) := by
  unfold inferColumnType
  split_ifs with h0 h1 h2 h3 h4 h5
  · exact iff_of_false (by decide) (fun hc => hc.1 h0)
  · exact iff_of_true rfl ⟨h0, h1⟩
  · exact iff_of_false (by decide) (fun hc => h1 hc.2)
  · exact iff_of_false (by decide) (fun hc => h1 hc.2)
  · exact iff_of_false (by decide) (fun hc => h1 hc.2)
  · exact iff_of_false (varchar_ne_short _ "BOOLEAN" (by decide)) (fun hc => h1 hc.2)
  · exact iff_of_false (by decide) (fun hc => h1 hc.2)

/-- C3 counterexample: the all-integer column [1] (one digit, so the claim
demands INTEGER) is classified BOOLEAN, because 1 equals True under the
Python equality used by the boolean check. -/
theorem c3_counterexample :
    [PyVal.int 1].all isStrictInt = true
    ∧ inferColumnType [PyVal.int 1] = "BOOLEAN"
    ∧ inferColumnType [PyVal.int 1] ≠ "INTEGER" := by decide

/-- C3 amended: for a column whose non-null values are all integers and are
not all drawn from 0 and 1 (such a column would be caught by the preceding
boolean check), the inference assigns INTEGER when the decimal-digit length
of the largest-magnitude absolute value is at most 9, and BIGINT when it
exceeds 9 digits. -/
theorem c3_integer_sizing (col : List PyVal)
    (hint : (dropna col).all isStrictInt = true)
    (hnb : (dropna col).all isBoolLike = false) :
    inferColumnType col =
      if digitLen (maxAbsInt (dropna col)) > 9 then "BIGINT" else "INTEGER" := by
  have h0 : dropna col ≠ [] := by
    intro h
    rw [h] at hnb
    simp at hnb
  have hpy : (dropna col).all isPyInt = true := by
    rw [List.all_eq_true] at hint ⊢
    intro x hx
    have := hint x hx
    cases x <;> simp_all [isStrictInt, isPyInt]
  have hnb' : ¬ ((dropna col).all isBoolLike = true) := by simp [hnb]
  unfold inferColumnType
  rw [if_neg h0, if_neg hnb', if_pos hpy]
  have hmap : (dropna col).map (fun v => digitLen (pyIntVal v).natAbs)
      = ((dropna col).map (fun v => (pyIntVal v).natAbs)).map digitLen := by
    rw [List.map_map]
    rfl
  rw [hmap,
    foldl_max_digitLen_of_ne_nil _ (fun h => h0 (List.map_eq_nil_iff.mp h))]
  rfl

/-- C3 witness: the spec's own examples, 9 digits giving INTEGER and 10
digits giving BIGINT, evaluated through the amended theorem. -/
theorem c3_witness :
    inferColumnType [PyVal.int 1, PyVal.int 42, PyVal.int 999999999] = "INTEGER"
    ∧ inferColumnType [PyVal.int 1, PyVal.int 9999999999] = "BIGINT" := by
  constructor
  · rw [c3_integer_sizing [PyVal.int 1, PyVal.int 42, PyVal.int 999999999]
      (by decide) (by decide)]
    decide
  · rw [c3_integer_sizing [PyVal.int 1, PyVal.int 9999999999] (by decide) (by decide)]
    decide

/-- C4: for a column whose non-null values are all strings, the inference
assigns VARCHAR(n) where n is the maximum character length observed across
the non-null values. -/
theorem c4_varchar_max_length (col : List PyVal)
    (hne : dropna col ≠ [])
    (hstr : (dropna col).all isStr = true) :
    inferColumnType col = "VARCHAR(" ++ toString (maxCharLen (dropna col)) ++ ")" := by
  obtain ⟨x, hx⟩ := List.exists_mem_of_ne_nil _ hne
  have hxs : isStr x = true := List.all_eq_true.mp hstr x hx
  obtain ⟨s, rfl⟩ : ∃ s, x = PyVal.str s := by
    cases x <;> simp_all [isStr]
  have hb : (dropna col).all isBoolLike = false := all_eq_false_of_mem hx rfl
  have hi : (dropna col).all isPyInt = false := all_eq_false_of_mem hx rfl
  have hf : (dropna col).all isFloatOrDec = false := all_eq_false_of_mem hx rfl
  unfold inferColumnType
  rw [if_neg hne, if_neg (by simp [hb]), if_neg (by simp [hi]), if_neg (by simp [hf]),
    if_pos hstr]
  have hfun : ∀ v : PyVal, pyStrLenCode v = (strVal v).length := by
    intro v
    unfold pyStrLenCode
    by_cases h : strVal v = ""
    · simp [h]
    · simp [h]
  have hmap : (dropna col).map pyStrLenCode = (dropna col).map (fun v => (strVal v).length) :=
    List.map_congr_left (fun v _ => hfun v)
  rw [hmap]
  rfl

/-- C4 witness: the spec's example column, a/abc/null, inferring VARCHAR(3),
evaluated through the theorem. -/
theorem c4_witness :
    inferColumnType [PyVal.str "a", PyVal.str "abc", PyVal.none] = "VARCHAR(3)" := by
  rw [c4_varchar_max_length [PyVal.str "a", PyVal.str "abc", PyVal.none]
    (by decide) (by decide)]
  decide

/-- C5 counterexample: the mixed boolean-and-integer column [True, 2] is
classified INTEGER, not VARCHAR(255), because Python booleans satisfy
`isinstance(x, int)`; this falsifies the claim that every mixed-type column
falls back to VARCHAR(255). -/
theorem c5_counterexample :
    [PyVal.bool true, PyVal.int 2].all isStrictBool = false
    ∧ [PyVal.bool true, PyVal.int 2].all isStrictInt = false
    ∧ [PyVal.bool true, PyVal.int 2].all isFloatOrDec = false
    ∧ [PyVal.bool true, PyVal.int 2].all isStr = false
    ∧ inferColumnType [PyVal.bool true, PyVal.int 2] = "INTEGER"
    ∧ inferColumnType [PyVal.bool true, PyVal.int 2] ≠ "VARCHAR(255)" := by decide

/-- C5 amended: a column with no non-null values is assigned VARCHAR(255);
a column of mixed or unrecognized types is assigned VARCHAR(255) unless it is
captured by an earlier branch, namely unless every non-null value equals True
or False under Python numeric equality (then BOOLEAN) or every non-null value
is an integer in Python's sense, booleans included (then INTEGER/BIGINT). -/
theorem c5_fallback (col : List PyVal) :
    (dropna col = [] → inferColumnType col = "VARCHAR(255)")
    ∧ ((dropna col).all isFloatOrDec = false → (dropna col).all isStr = false →
        (dropna col).all isBoolLike = false → (dropna col).all isPyInt = false →
        inferColumnType col = "VARCHAR(255)") := by
  constructor
  · intro h0
    unfold inferColumnType
    rw [if_pos h0]
  · intro hf hs hb hi
    have h0 : dropna col ≠ [] := by
      intro h
      rw [h] at hb
      simp at hb
    unfold inferColumnType
    rw [if_neg h0, if_neg (by simp [hb]), if_neg (by simp [hi]), if_neg (by simp [hf]),
      if_neg (by simp [hs])]

/-- C5 witness: an all-null column and the mixed int/string column [2, a],
both inferring VARCHAR(255), evaluated through the theorem. -/
theorem c5_witness :
    inferColumnType [PyVal.none] = "VARCHAR(255)"
    ∧ inferColumnType [PyVal.int 2, PyVal.str "a"] = "VARCHAR(255)" :=
  ⟨(c5_fallback [PyVal.none]).1 (by decide),
   (c5_fallback [PyVal.int 2, PyVal.str "a"]).2 (by decide) (by decide) (by decide) (by decide)⟩

/-- C6: a failure at the existence-check, drop, create or insert step of the
load (for the drop step, a failure presupposes that the drop is executed,
which requires the table to exist) makes the load roll the whole transaction
back (committed state unchanged, so no partial rows of the failed insert are
visible), report the error without re-raising it past the caller boundary,
and release connection and cursor. -/
theorem c6_rollback (db : DB) (df : Option Df) (dest : String) (s : LoadStep)
    (hs : s = LoadStep.checkExists ∨ s = LoadStep.dropTable ∨ s = LoadStep.createTable
      ∨ s = LoadStep.insertRows)
    (hdrop : s = LoadStep.dropTable → (dbLookup db dest).isSome = true) :
    (load_dataframe_to_table db df dest (some s)).outcome = LoadOutcome.errorReported
    ∧ (load_dataframe_to_table db df dest (some s)).db = db
    ∧ (load_dataframe_to_table db df dest (some s)).connOpen = false
    ∧ (load_dataframe_to_table db df dest (some s)).cursorOpen = false := by
  rcases hs with rfl | rfl | rfl | rfl
  · cases df <;> simp [load_dataframe_to_table]
  · have h := hdrop rfl
    cases df <;> simp [load_dataframe_to_table, h]
  · cases df <;> simp [load_dataframe_to_table]
  · cases df with
    | none => simp [load_dataframe_to_table]
    | some d =>
      by_cases h : (dbLookup db dest).isSome
      · simp [load_dataframe_to_table, h, dbLookup_dbDrop]
      · simp [load_dataframe_to_table, h]

/-- C6 witness: an insert failure on a rebuild of an existing table leaves
the committed state untouched, reports the error and closes everything. -/
theorem c6_witness :
    (load_dataframe_to_table [("sb.t", [[PyVal.int 7]])] (some ⟨["a"], [[PyVal.int 1]]⟩)
      "sb.t" (some LoadStep.insertRows)).outcome = LoadOutcome.errorReported
    ∧ (load_dataframe_to_table [("sb.t", [[PyVal.int 7]])] (some ⟨["a"], [[PyVal.int 1]]⟩)
      "sb.t" (some LoadStep.insertRows)).db = [("sb.t", [[PyVal.int 7]])]
    ∧ (load_dataframe_to_table [("sb.t", [[PyVal.int 7]])] (some ⟨["a"], [[PyVal.int 1]]⟩)
      "sb.t" (some LoadStep.insertRows)).connOpen = false
    ∧ (load_dataframe_to_table [("sb.t", [[PyVal.int 7]])] (some ⟨["a"], [[PyVal.int 1]]⟩)
      "sb.t" (some LoadStep.insertRows)).cursorOpen = false :=
  c6_rollback [("sb.t", [[PyVal.int 7]])] (some ⟨["a"], [[PyVal.int 1]]⟩) "sb.t"
    LoadStep.insertRows (by decide) (by decide)

/-- C7 counterexample: when opening the cursor fails right after the
connection was opened, `_disconnect` raises on `self.cursor.close()` before
ever reaching `self.conn.close()`, so the connection is left open after the
load finishes; this falsifies the claim that the connection is released on
every exit path. -/
theorem c7_counterexample :
    (load_dataframe_to_table [] (some ⟨["a"], []⟩) "sb.t"
      (some LoadStep.cursorOpen)).connOpen = true := by decide

/-- C7 amended: on every invocation in which the cursor-opening step does not
fail (in particular on success, on a failure to open the connection itself,
and on any failure of the check/drop/create/insert/commit steps), neither the
connection nor the cursor is left open when the load finishes; but a failure
of `self.conn.cursor()` after a successful connect leaves the connection
open. -/
theorem c7_release (db : DB) (df : Option Df) (dest : String) (failAt : Option LoadStep)
    (h : failAt ≠ some LoadStep.cursorOpen) :
    (load_dataframe_to_table db df dest failAt).connOpen = false
    ∧ (load_dataframe_to_table db df dest failAt).cursorOpen = false := by
  cases df <;> unfold load_dataframe_to_table <;> split_ifs <;> simp_all

/-- C7 witness: a fully successful load releases both connection and
cursor. -/
theorem c7_witness :
    (load_dataframe_to_table [("sb.t", [[PyVal.int 7]])] (some ⟨["a"], [[PyVal.int 1]]⟩)
      "sb.t" Option.none).connOpen = false
    ∧ (load_dataframe_to_table [("sb.t", [[PyVal.int 7]])] (some ⟨["a"], [[PyVal.int 1]]⟩)
      "sb.t" Option.none).cursorOpen = false :=
  c7_release [("sb.t", [[PyVal.int 7]])] (some ⟨["a"], [[PyVal.int 1]]⟩) "sb.t"
    Option.none (by decide)

/-- C8: the token workflow issues a refresh POST exactly when the stored
token's expiry is strictly earlier than the current time; in that case the
refreshed token is persisted to the token file and returned, and the save
happens strictly before the protected request of the activities fetch; when
the stored token is not expired, no refresh is issued, the file is unchanged
and the stored access token is returned. -/
theorem c8_token_refresh (stored refreshed : TokenData) (now : Int) :
    ((access_token_workflow stored now refreshed).refreshCalled = true ↔
      stored.expires_at < now)
    ∧ (stored.expires_at < now →
        (access_token_workflow stored now refreshed).file = refreshed
        ∧ (access_token_workflow stored now refreshed).token = refreshed.access_token)
    ∧ (¬ stored.expires_at < now →
        (access_token_workflow stored now refreshed).refreshCalled = false
        ∧ (access_token_workflow stored now refreshed).token = stored.access_token
        ∧ (access_token_workflow stored now refreshed).file = stored
        ∧ TokenEvent.refreshPost ∉ fetch_strava_activities_events stored now refreshed)
    ∧ (∀ i j : Nat,
        (fetch_strava_activities_events stored now refreshed).get? i
          = some TokenEvent.saveFile →
        (fetch_strava_activities_events stored now refreshed).get? j
          = some TokenEvent.protectedGet →
        i < j) := by
  by_cases h : stored.expires_at < now
  · by_cases ht : refreshed.access_token = ""
    · have hev : fetch_strava_activities_events stored now refreshed
          = [TokenEvent.loadFile, TokenEvent.refreshPost, TokenEvent.saveFile] := by
        simp [fetch_strava_activities_events, access_token_workflow, h, ht]
      refine ⟨by simp [access_token_workflow, h], fun _ => by simp [access_token_workflow, h],
        fun hc => absurd h hc, ?_⟩
      intro i j hi hj
      rw [hev] at hj
      obtain ⟨hltj, -⟩ := List.get?_eq_some.mp hj
      simp only [List.length_cons, List.length_nil] at hltj
      interval_cases j <;> simp_all
    · have hev : fetch_strava_activities_events stored now refreshed
          = [TokenEvent.loadFile, TokenEvent.refreshPost, TokenEvent.saveFile,
             TokenEvent.protectedGet] := by
        simp [fetch_strava_activities_events, access_token_workflow, h, ht]
      refine ⟨by simp [access_token_workflow, h], fun _ => by simp [access_token_workflow, h],
        fun hc => absurd h hc, ?_⟩
      intro i j hi hj
      rw [hev] at hi hj
      obtain ⟨hlti, -⟩ := List.get?_eq_some.mp hi
      obtain ⟨hltj, -⟩ := List.get?_eq_some.mp hj
      simp only [List.length_cons, List.length_nil] at hlti hltj
      interval_cases i <;> interval_cases j <;> simp_all
  · have hev : fetch_strava_activities_events stored now refreshed
        = [TokenEvent.loadFile] ++
          (if stored.access_token ≠ "" then [TokenEvent.protectedGet] else []) := by
      simp [fetch_strava_activities_events, access_token_workflow, h]
    refine ⟨by simp [access_token_workflow, h], fun hc => absurd hc h, ?_, ?_⟩
    · intro hc
      refine ⟨by simp [access_token_workflow, h], by simp [access_token_workflow, h],
        by simp [access_token_workflow, h], ?_⟩
      rw [hev]
      by_cases ht : stored.access_token = "" <;> simp [ht]
    · intro i j hi hj
      rw [hev] at hi
      by_cases ht : stored.access_token = ""
      · rw [if_neg (not_not_intro ht)] at hi
        rcases i with _ | i <;> simp_all [List.get?]
      · rw [if_pos ht] at hi
        rcases i with _ | _ | i <;> simp_all [List.get?]

/-- C8 witness: a concrete expired token triggers a refresh and a concrete
live token does not. -/
theorem c8_witness :
    (access_token_workflow ⟨"a", "r", 5⟩ 10 ⟨"n", "r2", 99⟩).refreshCalled = true
    ∧ (access_token_workflow ⟨"a", "r", 50⟩ 10 ⟨"n", "r2", 99⟩).refreshCalled = false :=
  ⟨(c8_token_refresh ⟨"a", "r", 5⟩ ⟨"n", "r2", 99⟩ 10).1.mpr (by decide),
   ((c8_token_refresh ⟨"a", "r", 50⟩ ⟨"n", "r2", 99⟩ 10).2.2.1 (by decide)).1⟩

/-- C9 counterexample: with a non-success activities status the fetch
produces no dataset, yet the orchestration still invokes the downstream load
for that dataset (with the missing dataframe); this falsifies the claim that
the downstream load is skipped. -/
theorem c9_counterexample :
    (load_strava_data_to_postgres [] ⟨"tok", "r", 50⟩ 10 ⟨"n", "r2", 99⟩ 500
      ⟨["c"], [[PyVal.int 1]]⟩ 200 ⟨1, "Jo", "Doe"⟩).activitiesDf = Option.none
    ∧ (load_strava_data_to_postgres [] ⟨"tok", "r", 50⟩ 10 ⟨"n", "r2", 99⟩ 500
      ⟨["c"], [[PyVal.int 1]]⟩ 200 ⟨1, "Jo", "Doe"⟩).activitiesLoadInvoked = true := by decide

/-- C9 amended: on a non-success activities status (with a usable token) the
error is reported to the console and no dataset is produced, but the
orchestration does not skip the downstream load: it invokes the load with the
missing dataset; that load then fails inside the load boundary, is rolled
back and reported, so the destination table's committed state is
unchanged. -/
theorem c9_api_failure (db : DB) (stored refreshed : TokenData) (now : Int)
    (actStatus : Nat) (actPayload : Df) (athStatus : Nat) (athlete : AthleteRec)
    (htok : (access_token_workflow stored now refreshed).token ≠ "")
    (hstatus : actStatus ≠ 200) :
    (load_strava_data_to_postgres db stored now refreshed actStatus actPayload
      athStatus athlete).activitiesDf = Option.none
    ∧ (load_strava_data_to_postgres db stored now refreshed actStatus actPayload
      athStatus athlete).activitiesApiErrorPrinted = true
    ∧ (load_strava_data_to_postgres db stored now refreshed actStatus actPayload
      athStatus athlete).activitiesLoadInvoked = true
    ∧ (load_strava_data_to_postgres db stored now refreshed actStatus actPayload
      athStatus athlete).activitiesLoadOutcome = LoadOutcome.errorReported
    ∧ (load_strava_data_to_postgres db stored now refreshed actStatus actPayload
      athStatus athlete).dbAfterActivities = db := by
  have hfa : fetch_strava_activities stored now refreshed actStatus actPayload
      = ⟨Option.none, true, false⟩ := by
    simp [fetch_strava_activities, htok, hstatus]
  simp [load_strava_data_to_postgres, hfa, load_dataframe_to_table]

/-- C9 witness: a concrete failed activities fetch, with the database state
for the activities table left untouched by the attempted load. -/
theorem c9_witness :
    (load_strava_data_to_postgres [("sb.strava_activities", [[PyVal.int 9]])]
      ⟨"tok", "r", 50⟩ 10 ⟨"n", "r2", 99⟩ 500 ⟨["c"], []⟩ 200
      ⟨1, "Jo", "Doe"⟩).activitiesDf = Option.none
    ∧ (load_strava_data_to_postgres [("sb.strava_activities", [[PyVal.int 9]])]
      ⟨"tok", "r", 50⟩ 10 ⟨"n", "r2", 99⟩ 500 ⟨["c"], []⟩ 200
      ⟨1, "Jo", "Doe"⟩).activitiesApiErrorPrinted = true
    ∧ (load_strava_data_to_postgres [("sb.strava_activities", [[PyVal.int 9]])]
      ⟨"tok", "r", 50⟩ 10 ⟨"n", "r2", 99⟩ 500 ⟨["c"], []⟩ 200
      ⟨1, "Jo", "Doe"⟩).activitiesLoadInvoked = true
    ∧ (load_strava_data_to_postgres [("sb.strava_activities", [[PyVal.int 9]])]
      ⟨"tok", "r", 50⟩ 10 ⟨"n", "r2", 99⟩ 500 ⟨["c"], []⟩ 200
      ⟨1, "Jo", "Doe"⟩).activitiesLoadOutcome = LoadOutcome.errorReported
    ∧ (load_strava_data_to_postgres [("sb.strava_activities", [[PyVal.int 9]])]
      ⟨"tok", "r", 50⟩ 10 ⟨"n", "r2", 99⟩ 500 ⟨["c"], []⟩ 200
      ⟨1, "Jo", "Doe"⟩).dbAfterActivities = [("sb.strava_activities", [[PyVal.int 9]])] :=
  c9_api_failure [("sb.strava_activities", [[PyVal.int 9]])] ⟨"tok", "r", 50⟩
    ⟨"n", "r2", 99⟩ 10 500 ⟨["c"], []⟩ 200 ⟨1, "Jo", "Doe"⟩ (by decide) (by decide)

/-- C10: with a usable token, an athlete-endpoint response with a status
other than 200 makes `fetch_strava_athletes` raise an unhandled error (its
return statement reads `user_dict`, which is only assigned on the status-200
branch), producing no dataset and printing no diagnostic. -/
theorem c10_athletes_unbound (stored refreshed : TokenData) (now : Int)
    (status : Nat) (athlete : AthleteRec)
    (htok : (access_token_workflow stored now refreshed).token ≠ "")
    (hstatus : status ≠ 200) :
    (fetch_strava_athletes stored now refreshed status athlete).raised = true
    ∧ (fetch_strava_athletes stored now refreshed status athlete).df = Option.none
    ∧ (fetch_strava_athletes stored now refreshed status athlete).printedApiError = false := by
  simp [fetch_strava_athletes, htok, hstatus]

/-- C10 witness: a concrete 500 response from the athlete endpoint raises. -/
theorem c10_witness :
    (fetch_strava_athletes ⟨"tok", "r", 50⟩ 10 ⟨"n", "r2", 99⟩ 500
      ⟨1, "Jo", "Doe"⟩).raised = true
    ∧ (fetch_strava_athletes ⟨"tok", "r", 50⟩ 10 ⟨"n", "r2", 99⟩ 500
      ⟨1, "Jo", "Doe"⟩).df = Option.none
    ∧ (fetch_strava_athletes ⟨"tok", "r", 50⟩ 10 ⟨"n", "r2", 99⟩ 500
      ⟨1, "Jo", "Doe"⟩).printedApiError = false :=
  c10_athletes_unbound ⟨"tok", "r", 50⟩ ⟨"n", "r2", 99⟩ 10 500 ⟨1, "Jo", "Doe"⟩
    (by decide) (by decide)

